import Mathlib

/-!
# http-trace: a request lifecycle tracer

Shallow embedding of `src/http-trace/main.go`.

The program registers sixteen closures on an `httptrace.ClientTrace`; each
closure formats its arguments and the current time with one `fmt.Printf`.
`main` issues one GET and prints the first 20 bytes of the body.

Modelling choices:

* standard output is the list of writes made so far (one per `fmt` call);
  every printing statement is a function `Stdout → Stdout`;
* a Go `error` is `none` (nil) or `some msg`, `msg` being what `Error()` returns;
* values of library types that print through a method (`time.Time`,
  `time.Duration`, `net.IP`) are represented by the text that method returns;
* a run-time panic is an explicit `Fault`;
* what the standard library decides (whether `http.NewRequest` accepts its
  arguments, what `client.Do` returns and which hooks it fires, the slice
  `ioutil.ReadAll` hands back) is a parameter.
-/

namespace HttpTrace

/-! ## Values -/

/-- A Go `error`: `none` is nil, `some msg` an error whose `Error()` is `msg`. -/
abbrev GoError := Option String

/-- The text of `time.Now().String()` at one reading of the clock. -/
abbrev Time := String

/-- Run-time panics of the Go runtime that the program can raise. -/
inductive Fault where
  /-- invalid memory address or nil pointer dereference -/
  | nilDereference
  /-- slice bounds out of range `[:hi]` with capacity `cap` -/
  | sliceBounds (hi cap : Nat)
  deriving DecidableEq, Repr

/-- One call of `fmt.Printf` / `fmt.Print` / `fmt.Println` on standard output. -/
inductive Write where
  /-- a formatted text -/
  | text (s : String)
  /-- the bytes of a `string(bytes)` conversion, which need not be valid UTF-8 -/
  | raw (bs : List UInt8)
  deriving DecidableEq, Repr

/-- Standard output: the writes made so far, oldest first. -/
abbrev Stdout := List Write

/-- The type `httptrace.GotConnInfo`. `Conn` is a `net.Conn` interface value: nil, or
a pointer, given by the address text `%v` prints for it inside a struct. -/
structure GotConnInfo where
  Conn : Option String
  Reused : Bool
  WasIdle : Bool
  /-- the text of `IdleTime.String()` -/
  IdleTime : String
  deriving DecidableEq, Repr

/-- The type `httptrace.DNSStartInfo`. -/
structure DNSStartInfo where
  Host : String
  deriving DecidableEq, Repr

/-- The type `net.IPAddr`; `IP` is given by the text of `IP.String()`. -/
structure IPAddr where
  IP : String
  Zone : String
  deriving DecidableEq, Repr

/-- The type `httptrace.DNSDoneInfo`. -/
structure DNSDoneInfo where
  Addrs : List IPAddr
  Err : GoError
  Coalesced : Bool
  deriving DecidableEq, Repr

/-- The one field of `tls.ConnectionState` the program reads. -/
structure ConnectionState where
  HandshakeComplete : Bool
  deriving DecidableEq, Repr

/-- The type `httptrace.WroteRequestInfo`. -/
structure WroteRequestInfo where
  Err : GoError
  deriving DecidableEq, Repr

/-- The type `textproto.MIMEHeader`, a `map[string][]string`, as its entries.
A nil map and an empty map are both `[]`; a nil and an empty value slice both `[]`. -/
abbrev MIMEHeader := List (String × List String)

/-! ## The `fmt` verbs the program uses -/

/-- Verb `%s` on an `error` operand: a nil interface is a bad operand for `%s`. -/
def fmtErrorS : GoError → String
  | none => "%!s(<nil>)"
  | some msg => msg

/-- Verb `%v` on an `error` operand, at top level or as a struct field. -/
def fmtErrorV : GoError → String
  | none => "<nil>"
  | some msg => msg

/-- Verb `%t` (and `%v`) on a `bool`. -/
def fmtBool : Bool → String
  | true => "true"
  | false => "false"

/-- Verb `%d` on an `int`. -/
def fmtInt (n : Int) : String := toString n

/-- Verb `%v` on a `[]string`. -/
def fmtStrings (vs : List String) : String :=
  "[" ++ " ".intercalate vs ++ "]"

/-- Go's `<` on strings: lexicographic order of the characters (for UTF-8 text the
same as the order of the bytes). -/
def keyLess (a b : String) : Bool :=
  decide (a.data < b.data)

/-- Insertion of a map entry by key order, as `fmt` prints maps sorted by key. -/
def insertByKey (e : String × List String) : MIMEHeader → MIMEHeader
  | [] => [e]
  | x :: xs => if keyLess e.1 x.1 then e :: x :: xs else x :: insertByKey e xs

/-- The entries of a map in the order `fmt` prints them. -/
def sortByKey (m : MIMEHeader) : MIMEHeader :=
  m.foldr insertByKey []

/-- Verb `%v` on a `textproto.MIMEHeader`. -/
def fmtMIMEHeader (h : MIMEHeader) : String :=
  "map[" ++ " ".intercalate ((sortByKey h).map fun e => e.1 ++ ":" ++ fmtStrings e.2) ++ "]"

/-- Verb `%v` on a `net.Conn` field. -/
def fmtConn : Option String → String
  | none => "<nil>"
  | some addr => addr

/-- Verb `%v` on an `httptrace.GotConnInfo`. -/
def fmtGotConnInfo (c : GotConnInfo) : String :=
  "\x7b" ++ fmtConn c.Conn ++ " " ++ fmtBool c.Reused ++ " " ++ fmtBool c.WasIdle ++ " "
    ++ c.IdleTime ++ "\x7d"

/-- Verb `%v` on a `net.IPAddr` inside a slice. -/
def fmtIPAddr (a : IPAddr) : String :=
  "\x7b" ++ a.IP ++ " " ++ a.Zone ++ "\x7d"

/-- Verb `%v` on an `httptrace.DNSDoneInfo`. -/
def fmtDNSDoneInfo (d : DNSDoneInfo) : String :=
  "\x7b[" ++ " ".intercalate (d.Addrs.map fmtIPAddr) ++ "] " ++ fmtErrorV d.Err ++ " "
    ++ fmtBool d.Coalesced ++ "\x7d"

/-- Verb `%v` on an `httptrace.WroteRequestInfo`. -/
def fmtWroteRequestInfo (w : WroteRequestInfo) : String :=
  "\x7b" ++ fmtErrorV w.Err ++ "\x7d"

/-- One `fmt.Printf` call, its format already applied: one write on standard output. -/
def Printf (s : String) (out : Stdout) : Stdout :=
  out ++ [Write.text s]

/-! ## The trace -/

/-- The type `httptrace.ClientTrace`: sixteen optional hooks. A hook is nil (`none`) or a
function; it gets its arguments, the reading `time.Now().String()` would give during
the call, and standard output. -/
structure ClientTrace where
  GetConn : Option (String → Time → Stdout → Stdout)
  GotConn : Option (GotConnInfo → Time → Stdout → Stdout)
  PutIdleConn : Option (GoError → Time → Stdout → Stdout)
  GotFirstResponseByte : Option (Time → Stdout → Stdout)
  Got100Continue : Option (Time → Stdout → Stdout)
  Got1xxResponse : Option (Int → MIMEHeader → Time → Stdout → Stdout × GoError)
  DNSStart : Option (DNSStartInfo → Time → Stdout → Stdout)
  DNSDone : Option (DNSDoneInfo → Time → Stdout → Stdout)
  ConnectStart : Option (String → String → Time → Stdout → Stdout)
  ConnectDone : Option (String → String → GoError → Time → Stdout → Stdout)
  TLSHandshakeStart : Option (Time → Stdout → Stdout)
  TLSHandshakeDone : Option (ConnectionState → GoError → Time → Stdout → Stdout)
  WroteHeaderField : Option (String → List String → Time → Stdout → Stdout)
  WroteHeaders : Option (Time → Stdout → Stdout)
  Wait100Continue : Option (Time → Stdout → Stdout)
  WroteRequest : Option (WroteRequestInfo → Time → Stdout → Stdout)

/-- The struct literal `trace` of `NewRequest` (main.go lines 24-75), field by field. -/
def trace : ClientTrace where
  GetConn := some fun hostPort now =>
    Printf ("GetConn - hostPort: " ++ hostPort ++ "\n\tTime: " ++ now ++ "\n")
  GotConn := some fun connInfo now =>
    Printf ("GotCon - connInfo: " ++ fmtGotConnInfo connInfo ++ "\n\tIdletime: "
      ++ connInfo.IdleTime ++ "\n\tTime: " ++ now ++ "\n")
  PutIdleConn := some fun err now =>
    Printf ("PutIdleConn - err: " ++ fmtErrorV err ++ "\n\tTime: " ++ now ++ "\n")
  GotFirstResponseByte := some fun now =>
    Printf ("GotFirstResponseByte - \n\tTime: " ++ now ++ "\n")
  Got100Continue := some fun now =>
    Printf ("Got100Continue - \n\tTime: " ++ now ++ "\n")
  Got1xxResponse := some fun code header now out =>
    (Printf ("Got1xxResponse - code: " ++ fmtInt code ++ "\tMime: " ++ fmtMIMEHeader header
      ++ "\n\tTime: " ++ now ++ "\n") out, none)
  DNSStart := some fun dsi now =>
    Printf ("DNSStart - DNSStartInfo host: " ++ dsi.Host ++ "\n\tTime: " ++ now ++ "\n")
  DNSDone := some fun ddi now =>
    Printf ("DNSDone - DNSDoneInfo: " ++ fmtDNSDoneInfo ddi ++ "\n\tTime: " ++ now ++ "\n")
  ConnectStart := some fun network addr now =>
    Printf ("ConnectStart - network: " ++ network ++ "\taddr: " ++ addr ++ "\n\tTime: "
      ++ now ++ "\n")
  ConnectDone := some fun network addr err now =>
    Printf ("ConnectDone - network: " ++ network ++ "\taddr: " ++ addr ++ "\terror: "
      ++ fmtErrorS err ++ "\n\tTime: " ++ now ++ "\n")
  TLSHandshakeStart := some fun now =>
    Printf ("TLSHandshakeStart - \n\tTime: " ++ now ++ "\n")
  TLSHandshakeDone := some fun cs err now =>
    Printf ("TLSHandshakeDone - ConnectionState completed: " ++ fmtBool cs.HandshakeComplete
      ++ "\terror: " ++ fmtErrorS err ++ "\n\tTime: " ++ now ++ "\n")
  WroteHeaderField := some fun key value now =>
    Printf ("WroteHeaderField - key: " ++ key ++ "\tvalue: " ++ fmtStrings value
      ++ "\n\tTime: " ++ now ++ "\n")
  WroteHeaders := some fun now =>
    Printf ("WroteHeaders - \n\tTime: " ++ now ++ "\n")
  Wait100Continue := some fun now =>
    Printf ("Wait100Continue - \n\tTime: " ++ now ++ "\n")
  WroteRequest := some fun wri now =>
    Printf ("WroteRequest - WroteRequestInfo: " ++ fmtWroteRequestInfo wri ++ "\n\tTime: "
      ++ now ++ "\n")

/-! ## The transport's side of the hooks -/

/-- One invocation of a hook by the transport, with the arguments it passes. -/
inductive HookCall where
  | GetConn (hostPort : String)
  | GotConn (connInfo : GotConnInfo)
  | PutIdleConn (err : GoError)
  | GotFirstResponseByte
  | Got100Continue
  | Got1xxResponse (code : Int) (header : MIMEHeader)
  | DNSStart (dsi : DNSStartInfo)
  | DNSDone (ddi : DNSDoneInfo)
  | ConnectStart (network addr : String)
  | ConnectDone (network addr : String) (err : GoError)
  | TLSHandshakeStart
  | TLSHandshakeDone (cs : ConnectionState) (err : GoError)
  | WroteHeaderField (key : String) (value : List String)
  | WroteHeaders
  | Wait100Continue
  | WroteRequest (wri : WroteRequestInfo)
  deriving DecidableEq, Repr

/-- The name of the `ClientTrace` field the transport calls for an invocation. -/
def HookCall.name : HookCall → String
  | .GetConn _ => "GetConn"
  | .GotConn _ => "GotConn"
  | .PutIdleConn _ => "PutIdleConn"
  | .GotFirstResponseByte => "GotFirstResponseByte"
  | .Got100Continue => "Got100Continue"
  | .Got1xxResponse _ _ => "Got1xxResponse"
  | .DNSStart _ => "DNSStart"
  | .DNSDone _ => "DNSDone"
  | .ConnectStart _ _ => "ConnectStart"
  | .ConnectDone _ _ _ => "ConnectDone"
  | .TLSHandshakeStart => "TLSHandshakeStart"
  | .TLSHandshakeDone _ _ => "TLSHandshakeDone"
  | .WroteHeaderField _ _ => "WroteHeaderField"
  | .WroteHeaders => "WroteHeaders"
  | .Wait100Continue => "Wait100Continue"
  | .WroteRequest _ => "WroteRequest"

/-- A hook without result, called as net/http calls it: only when it is not nil. -/
def callIfSet (hook : Option (Time → Stdout → Stdout)) (now : Time) (out : Stdout) :
    Stdout × GoError :=
  match hook with
  | some f => (f now out, none)
  | none => (out, none)

/-- The transport invoking one hook of trace `t` at clock reading `now`: the new standard
output and the error the hook returns (only `Got1xxResponse` has a result). -/
def fire (t : ClientTrace) (c : HookCall) (now : Time) (out : Stdout) : Stdout × GoError :=
  match c with
  | .GetConn hostPort => callIfSet (t.GetConn.map fun f => f hostPort) now out
  | .GotConn connInfo => callIfSet (t.GotConn.map fun f => f connInfo) now out
  | .PutIdleConn err => callIfSet (t.PutIdleConn.map fun f => f err) now out
  | .GotFirstResponseByte => callIfSet t.GotFirstResponseByte now out
  | .Got100Continue => callIfSet t.Got100Continue now out
  | .Got1xxResponse code header =>
    match t.Got1xxResponse with
    | some f => f code header now out
    | none => (out, none)
  | .DNSStart dsi => callIfSet (t.DNSStart.map fun f => f dsi) now out
  | .DNSDone ddi => callIfSet (t.DNSDone.map fun f => f ddi) now out
  | .ConnectStart network addr => callIfSet (t.ConnectStart.map fun f => f network addr) now out
  | .ConnectDone network addr err =>
    callIfSet (t.ConnectDone.map fun f => f network addr err) now out
  | .TLSHandshakeStart => callIfSet t.TLSHandshakeStart now out
  | .TLSHandshakeDone cs err => callIfSet (t.TLSHandshakeDone.map fun f => f cs err) now out
  | .WroteHeaderField key value =>
    callIfSet (t.WroteHeaderField.map fun f => f key value) now out
  | .WroteHeaders => callIfSet t.WroteHeaders now out
  | .Wait100Continue => callIfSet t.Wait100Continue now out
  | .WroteRequest wri => callIfSet (t.WroteRequest.map fun f => f wri) now out

/-- Whether the field of trace `t` that an invocation calls holds a function. -/
def isSet (t : ClientTrace) : HookCall → Bool
  | .GetConn _ => t.GetConn.isSome
  | .GotConn _ => t.GotConn.isSome
  | .PutIdleConn _ => t.PutIdleConn.isSome
  | .GotFirstResponseByte => t.GotFirstResponseByte.isSome
  | .Got100Continue => t.Got100Continue.isSome
  | .Got1xxResponse _ _ => t.Got1xxResponse.isSome
  | .DNSStart _ => t.DNSStart.isSome
  | .DNSDone _ => t.DNSDone.isSome
  | .ConnectStart _ _ => t.ConnectStart.isSome
  | .ConnectDone _ _ _ => t.ConnectDone.isSome
  | .TLSHandshakeStart => t.TLSHandshakeStart.isSome
  | .TLSHandshakeDone _ _ => t.TLSHandshakeDone.isSome
  | .WroteHeaderField _ _ => t.WroteHeaderField.isSome
  | .WroteHeaders => t.WroteHeaders.isSome
  | .Wait100Continue => t.Wait100Continue.isSome
  | .WroteRequest _ => t.WroteRequest.isSome

/-- The plain Go call of a hook of trace `t`, as in `t.GetConn(hostPort)`, without the nil
check net/http makes first: calling a nil function value panics, calling a function runs
it. -/
def call (t : ClientTrace) (c : HookCall) (now : Time) (out : Stdout) :
    Except Fault (Stdout × GoError) :=
  if isSet t c then .ok (fire t c now out) else .error Fault.nilDereference

/-- A sequence of hook invocations, each with the clock reading during it, in the order
the transport makes them. An error returned by a hook makes the transport abandon the
request: no later hook is invoked. -/
def fireAll (t : ClientTrace) : List (HookCall × Time) → Stdout → Stdout × GoError
  | [], out => (out, none)
  | (c, now) :: rest, out =>
    match fire t c now out with
    | (out1, none) => fireAll t rest out1
    | (out1, some e) => (out1, some e)

/-- What one invocation writes when standard output is empty. -/
def record (c : HookCall) (now : Time) : Stdout :=
  (fire trace c now []).1

/-! ## NewRequest -/

/-- A `context.Context`, as far as client traces go. -/
inductive Context where
  | background
  | withClientTrace (parent : Context) (trace : ClientTrace)

/-- The function `httptrace.ContextClientTrace`. -/
def ContextClientTrace : Context → Option ClientTrace
  | .background => none
  | .withClientTrace _ t => some t

/-- The function `httptrace.WithClientTrace`. Its composition with a trace already in
`ctx` is left out: `NewRequest` calls it on the context of a request fresh from
`http.NewRequest`, which is `context.Background()`. -/
def WithClientTrace (ctx : Context) (t : ClientTrace) : Context :=
  .withClientTrace ctx t

/-- The fields of an `http.Request` the program touches. -/
structure HttpRequest where
  Method : String
  URL : String
  Body : Option (List UInt8)
  ctx : Context

/-- The method `(*http.Request).Context`. -/
def HttpRequest.Context (r : HttpRequest) : HttpTrace.Context := r.ctx

/-- The method `(*http.Request).WithContext`. -/
def HttpRequest.WithContext (r : HttpRequest) (ctx : HttpTrace.Context) : HttpRequest :=
  { r with ctx := ctx }

/-- The function `http.NewRequest`. Whether the library accepts a method and a URL is the
parameter `reject` (`some err` for the error it reports). The result is Go's pair
`(req, err)`: a nil request with the error, or a request on the background context. -/
def httpNewRequest (reject : String → String → GoError) (method url : String)
    (body : Option (List UInt8)) : Option HttpRequest × GoError :=
  match reject method url with
  | some e => (none, some e)
  | none =>
    (some { Method := if method = "" then "GET" else method, URL := url, Body := body,
            ctx := Context.background }, none)

set_option linter.dupNamespace false in
/-- The type `Request`: `struct { *http.Request }`. -/
structure Request where
  Request : HttpRequest

/-- The function `NewRequest` (main.go lines 21-79). `req.Context()` on line 77 is
evaluated whatever `err` is; on a nil `req` it dereferences a nil pointer. -/
def NewRequest (reject : String → String → GoError) (method url : String)
    (body : Option (List UInt8)) : Except Fault (Request × GoError) :=
  match httpNewRequest reject method url body with
  | (none, _) => .error Fault.nilDereference
  | (some req, err) =>
    let req := req.WithContext (WithClientTrace req.Context trace)
    .ok (⟨req⟩, err)

/-! ## main -/

/-- A Go `[]byte`: its elements, and the rest of its backing array up to its capacity. -/
structure ByteSlice where
  elems : List UInt8
  spare : List UInt8
  deriving DecidableEq, Repr

/-- Go's `len`. -/
def ByteSlice.len (s : ByteSlice) : Nat := s.elems.length

/-- Go's `cap`. -/
def ByteSlice.cap (s : ByteSlice) : Nat := s.elems.length + s.spare.length

/-- The slice expression `s[:hi]`: its bound is the capacity of `s`, not its length. -/
def ByteSlice.sliceTo (s : ByteSlice) (hi : Nat) : Except Fault (List UInt8) :=
  if hi ≤ s.cap then .ok ((s.elems ++ s.spare).take hi) else .error (Fault.sliceBounds hi s.cap)

/-- An `http.Response`, by the slice `ioutil.ReadAll(resp.Body)` returns for it (the
error of `ReadAll` is dropped by `main`). The elements of the slice are the body read. -/
structure Response where
  bodyBytes : ByteSlice
  deriving DecidableEq, Repr

/-- What lies outside the program during one run of `main`. -/
structure World where
  /-- the library's verdict on a method and a URL -/
  reject : String → String → GoError
  /-- the clock reading printed with "Start connection" -/
  startTime : Time
  /-- the hook invocations the transport makes during `client.Do`, each with the clock
  reading during it -/
  hooks : List (HookCall × Time)
  /-- the pair `(resp, err)` that `client.Do` returns -/
  doResult : Option Response × GoError
  /-- the clock reading printed with "End connection" -/
  endTime : Time
  /-- the hook invocations the transport makes after `client.Do` has returned, while `main`
  reads the body to its end (`PutIdleConn` for a connection that goes idle); none for a
  connection that is not kept -/
  lateHooks : List (HookCall × Time) := []

/-- The call `client.Do(req)`: the transport fires the hooks of the trace in the request's
context, then hands back its result. -/
def clientDo (w : World) (req : HttpRequest) (out : Stdout) :
    Stdout × Option Response × GoError :=
  match ContextClientTrace req.Context with
  | none => (out, w.doResult)
  | some t =>
    match fireAll t w.hooks out with
    | (out1, some e) => (out1, none, some e)
    | (out1, none) => (out1, w.doResult)

/-- The call `ioutil.ReadAll(resp.Body)`: while the body is read the transport fires the
late hooks of the trace in the request's context (what they return goes to the transport,
not to `main`); `main` gets the slice. -/
def readAll (w : World) (req : HttpRequest) (resp : Response) (out : Stdout) :
    Stdout × ByteSlice :=
  match ContextClientTrace req.Context with
  | none => (out, resp.bodyBytes)
  | some t => ((fireAll t w.lateHooks out).1, resp.bodyBytes)

/-- How a run ends: standard output, and the panic that ended it, if any (`none` is a
normal return of `main`, exit code 0; a panic ends the process with exit code 2). -/
structure Run where
  stdout : Stdout
  panic : Option Fault
  deriving DecidableEq, Repr

/-- The function `main` (main.go lines 81-98). -/
def main (w : World) : Run :=
  match NewRequest w.reject "GET" "https://example.com" none with
  | .error f => ⟨[], some f⟩
  | .ok (req, err) =>
    let out : Stdout := match err with
      | some e => Printf ("Error: " ++ e ++ "\n") []
      | none => []
    let out := Printf ("Start connection - \n\tTime: " ++ w.startTime ++ "\n") out
    match clientDo w req.Request out with
    | (out, resp, err) =>
      let out := Printf ("End connection - \n\tTime: " ++ w.endTime ++ "\n") out
      let out := match err with
        | some e => Printf ("Error: " ++ e ++ "\n") out
        | none => out
      match resp with
      | none => ⟨out, some Fault.nilDereference⟩
      | some resp =>
        match readAll w req.Request resp out with
        | (out, bodyBytes) =>
          match bodyBytes.sliceTo 20 with
          | .error f => ⟨out, some f⟩
          | .ok first =>
            ⟨out ++ [Write.raw first] ++ [Write.text "\n-----------------\n"], none⟩

/-- What `main` prints before it touches the response. -/
def mainTrace (w : World) : Stdout :=
  [Write.text ("Start connection - \n\tTime: " ++ w.startTime ++ "\n")]
    ++ (w.hooks.map fun p => record p.1 p.2).flatten
    ++ [Write.text ("End connection - \n\tTime: " ++ w.endTime ++ "\n")]
    ++ (match w.doResult.2 with
        | some e => [Write.text ("Error: " ++ e ++ "\n")]
        | none => [])

/-- What the late hooks print while `main` reads the body. -/
def lateTrace (w : World) : Stdout :=
  (w.lateHooks.map fun p => record p.1 p.2).flatten

/-! ## Sample surroundings -/

/-- Characters of an HTTP token (`httpguts.IsTokenRune`). -/
def isTokenChar (c : Char) : Bool :=
  c.isAlphanum || "!#$%&'*+-.^_`|~".data.contains c

/-- A library verdict that, like net/http, refuses a method with a character outside
the token characters. It accepts every URL, and its message quotes the method between
double quotes without escaping, so it is the verdict of net/http only for a URL that
net/http can parse and a method that `%q` leaves as it is. -/
def rejectBadMethod (method _url : String) : GoError :=
  if (if method = "" then "GET" else method).data.all isTokenChar then none
  else some ("net/http: invalid method \"" ++ method ++ "\"")

/-- A five-byte body in the 512-byte buffer `ioutil.ReadAll` starts from. -/
def helloSlice : ByteSlice :=
  { elems := [104, 101, 108, 108, 111], spare := List.replicate 507 0 }

/-- A run in which the server answers with the body `hello`. -/
def helloWorld : World :=
  { reject := rejectBadMethod
    startTime := "t0"
    hooks := [(.GetConn "example.com:443", "t1"), (.GotFirstResponseByte, "t2")]
    doResult := (some ⟨helloSlice⟩, none)
    endTime := "t3" }

/-- A run in which name resolution fails. -/
def offlineWorld : World :=
  { reject := rejectBadMethod
    startTime := "t0"
    hooks := [(.GetConn "example.com:443", "t1"), (.DNSStart ⟨"example.com"⟩, "t2"),
      (.DNSDone ⟨[], some "lookup example.com: no such host", false⟩, "t3")]
    doResult := (none, some "Get \"https://example.com\": dial tcp: lookup example.com: no such host")
    endTime := "t4" }

/-! ## Lemmas on the hooks -/

/-- The text of the single `fmt.Printf` of each hook of `trace`. -/
theorem record_eq (c : HookCall) (now : Time) :
    record c now = [Write.text (match c with
      | .GetConn hostPort => "GetConn - hostPort: " ++ hostPort ++ "\n\tTime: " ++ now ++ "\n"
      | .GotConn connInfo => "GotCon - connInfo: " ++ fmtGotConnInfo connInfo
          ++ "\n\tIdletime: " ++ connInfo.IdleTime ++ "\n\tTime: " ++ now ++ "\n"
      | .PutIdleConn err => "PutIdleConn - err: " ++ fmtErrorV err ++ "\n\tTime: " ++ now ++ "\n"
      | .GotFirstResponseByte => "GotFirstResponseByte - \n\tTime: " ++ now ++ "\n"
      | .Got100Continue => "Got100Continue - \n\tTime: " ++ now ++ "\n"
      | .Got1xxResponse code header => "Got1xxResponse - code: " ++ fmtInt code ++ "\tMime: "
          ++ fmtMIMEHeader header ++ "\n\tTime: " ++ now ++ "\n"
      | .DNSStart dsi => "DNSStart - DNSStartInfo host: " ++ dsi.Host ++ "\n\tTime: " ++ now
          ++ "\n"
      | .DNSDone ddi => "DNSDone - DNSDoneInfo: " ++ fmtDNSDoneInfo ddi ++ "\n\tTime: " ++ now
          ++ "\n"
      | .ConnectStart network addr => "ConnectStart - network: " ++ network ++ "\taddr: "
          ++ addr ++ "\n\tTime: " ++ now ++ "\n"
      | .ConnectDone network addr err => "ConnectDone - network: " ++ network ++ "\taddr: "
          ++ addr ++ "\terror: " ++ fmtErrorS err ++ "\n\tTime: " ++ now ++ "\n"
      | .TLSHandshakeStart => "TLSHandshakeStart - \n\tTime: " ++ now ++ "\n"
      | .TLSHandshakeDone cs err => "TLSHandshakeDone - ConnectionState completed: "
          ++ fmtBool cs.HandshakeComplete ++ "\terror: " ++ fmtErrorS err ++ "\n\tTime: "
          ++ now ++ "\n"
      | .WroteHeaderField key value => "WroteHeaderField - key: " ++ key ++ "\tvalue: "
          ++ fmtStrings value ++ "\n\tTime: " ++ now ++ "\n"
      | .WroteHeaders => "WroteHeaders - \n\tTime: " ++ now ++ "\n"
      | .Wait100Continue => "Wait100Continue - \n\tTime: " ++ now ++ "\n"
      | .WroteRequest wri => "WroteRequest - WroteRequestInfo: " ++ fmtWroteRequestInfo wri
          ++ "\n\tTime: " ++ now ++ "\n")] := by
  cases c <;> rfl

/-- Every hook of `trace` appends its record to standard output and returns no error. -/
theorem fire_trace (c : HookCall) (now : Time) (out : Stdout) :
    fire trace c now out = (out ++ record c now, none) := by
  cases c <;> simp [fire, record, trace, callIfSet, Printf]

/-- Every record is one write. -/
theorem record_length (c : HookCall) (now : Time) : (record c now).length = 1 := by
  rw [record_eq]; rfl

/-- A sequence of invocations on `trace` appends the records in order, and never aborts. -/
theorem fireAll_trace (calls : List (HookCall × Time)) (out : Stdout) :
    fireAll trace calls out = (out ++ (calls.map fun p => record p.1 p.2).flatten, none) := by
  induction calls generalizing out with
  | nil => simp [fireAll]
  | cons p rest ih =>
    obtain ⟨c, now⟩ := p
    simp [fireAll, fire_trace, ih, List.append_assoc]

/-- The key order is asymmetric. -/
theorem keyLess_asymm (a b : String) (h : keyLess a b = true) : keyLess b a = false := by
  simp only [keyLess, decide_eq_true_eq, decide_eq_false_iff_not] at h ⊢
  exact lt_asymm h

/-- What is not below `b` is not below anything below `b`. -/
theorem keyLess_trans_false (a b c : String) (h1 : keyLess a b = true)
    (h2 : keyLess c b = false) : keyLess c a = false := by
  simp only [keyLess, decide_eq_true_eq, decide_eq_false_iff_not] at h1 h2 ⊢
  exact fun h => h2 (lt_trans h h1)

/-- Inserting an entry keeps all entries. -/
theorem insertByKey_perm (e : String × List String) (m : MIMEHeader) :
    (insertByKey e m).Perm (e :: m) := by
  induction m with
  | nil => exact List.Perm.refl _
  | cons x xs ih =>
    unfold insertByKey
    split
    · exact List.Perm.refl _
    · exact (List.Perm.cons x ih).trans (List.Perm.swap e x xs)

/-- Printing a map prints every entry once. -/
theorem sortByKey_perm (m : MIMEHeader) : (sortByKey m).Perm m := by
  induction m with
  | nil => exact List.Perm.refl _
  | cons x xs ih => exact (insertByKey_perm x _).trans (List.Perm.cons x ih)

/-- Inserting an entry into entries in key order leaves them in key order. -/
theorem insertByKey_sorted (e : String × List String) (m : MIMEHeader)
    (h : m.Pairwise fun a b => keyLess b.1 a.1 = false) :
    (insertByKey e m).Pairwise fun a b => keyLess b.1 a.1 = false := by
  induction m with
  | nil => simp [insertByKey]
  | cons x xs ih =>
    rw [List.pairwise_cons] at h
    unfold insertByKey
    split
    · rename_i hlt
      refine List.pairwise_cons.2 ⟨?_, List.pairwise_cons.2 h⟩
      intro y hy
      rcases List.mem_cons.1 hy with rfl | hy
      · exact keyLess_asymm _ _ hlt
      · exact keyLess_trans_false _ _ _ hlt (h.1 y hy)
    · rename_i hlt
      refine List.pairwise_cons.2 ⟨?_, ih h.2⟩
      intro y hy
      rcases List.mem_cons.1 ((insertByKey_perm e xs).subset hy) with rfl | hy
      · simpa using hlt
      · exact h.1 y hy

/-- Printing a map prints its entries in key order. -/
theorem sortByKey_sorted (m : MIMEHeader) :
    (sortByKey m).Pairwise fun a b => keyLess b.1 a.1 = false := by
  induction m with
  | nil => simp [sortByKey]
  | cons x xs ih => exact insertByKey_sorted x _ ih

/-! ## The hooks: return value, order of records, statelessness -/

/-- C4: for every status code and every header map (the nil/empty one included) the
`Got1xxResponse` hook of `trace` is set, returns a nil error, and appends exactly one
record to standard output. -/
theorem Got1xxResponse_returns_nil (code : Int) (header : MIMEHeader) (now : Time)
    (out : Stdout) :
    ∃ f, trace.Got1xxResponse = some f
      ∧ f code header now out
          = (out ++ [Write.text ("Got1xxResponse - code: " ++ fmtInt code ++ "\tMime: "
              ++ fmtMIMEHeader header ++ "\n\tTime: " ++ now ++ "\n")], none)
      ∧ f code [] now out
          = (out ++ [Write.text ("Got1xxResponse - code: " ++ fmtInt code ++ "\tMime: "
              ++ "map[]" ++ "\n\tTime: " ++ now ++ "\n")], none)
      ∧ fire trace (.Got1xxResponse code header) now out = f code header now out :=
  ⟨_, rfl, rfl, rfl, rfl⟩

/-- C5: for every finite sequence of hook invocations on `trace`, standard output grows
by the records of the invocations, one write each, in the order of invocation; no hook
aborts the sequence; what was written before stays as a beginning of the output when more
invocations follow; two `Got1xxResponse` invocations give two records. -/
theorem fireAll_trace_in_order (calls more : List (HookCall × Time)) (out : Stdout) :
    (fireAll trace calls out).1 = out ++ (calls.map fun p => record p.1 p.2).flatten
      ∧ (fireAll trace calls out).2 = none
      ∧ (∀ p ∈ calls, (record p.1 p.2).length = 1)
      ∧ (fireAll trace calls out).1.length = out.length + calls.length
      ∧ (fireAll trace calls out).1 <+: (fireAll trace (calls ++ more) out).1
      ∧ (∀ code header now1 now2,
          (fireAll trace [(.Got1xxResponse code header, now1),
              (.Got1xxResponse code header, now2)] out).1
            = out ++ [Write.text ("Got1xxResponse - code: " ++ fmtInt code ++ "\tMime: "
                  ++ fmtMIMEHeader header ++ "\n\tTime: " ++ now1 ++ "\n"),
                Write.text ("Got1xxResponse - code: " ++ fmtInt code ++ "\tMime: "
                  ++ fmtMIMEHeader header ++ "\n\tTime: " ++ now2 ++ "\n")]) := by
  refine ⟨by rw [fireAll_trace], by rw [fireAll_trace], fun p _ => record_length p.1 p.2,
    ?_, ?_, ?_⟩
  · rw [fireAll_trace]
    induction calls with
    | nil => simp
    | cons p rest ih =>
      simp only [List.map_cons, List.flatten_cons, List.length_append, List.length_cons,
        record_length] at ih ⊢
      omega
  · rw [fireAll_trace, fireAll_trace, List.map_append, List.flatten_append,
      ← List.append_assoc]
    exact List.prefix_append _ _
  · intro code header now1 now2
    rw [fireAll_trace]
    simp [record_eq]

/-- C7: for every connection state `cs` and every non-nil error with text `e`, the record
of `TLSHandshakeDone` shows `cs.HandshakeComplete` as `true`/`false` and the error as `e`;
with `HandshakeComplete = false` and error `timeout` it shows `false` and `timeout`. -/
theorem TLSHandshakeDone_record (cs : ConnectionState) (e : String) (now : Time)
    (out : Stdout) :
    fire trace (.TLSHandshakeDone cs (some e)) now out
        = (out ++ [Write.text ("TLSHandshakeDone - ConnectionState completed: "
            ++ (if cs.HandshakeComplete = true then "true" else "false") ++ "\terror: " ++ e
            ++ "\n\tTime: " ++ now ++ "\n")], none)
      ∧ fire trace (.TLSHandshakeDone { HandshakeComplete := false } (some "timeout")) now out
        = (out ++ [Write.text ("TLSHandshakeDone - ConnectionState completed: " ++ "false"
            ++ "\terror: " ++ "timeout" ++ "\n\tTime: " ++ now ++ "\n")], none) := by
  constructor
  · rw [fire_trace, record_eq]
    cases cs with
    | mk hc => cases hc <;> rfl
  · rfl

/-- C8: every hook of `trace` is set, so calling it does not panic, and for every
argument value the call returns without an error after appending one record, which holds
the supplied fields as spelled out below for each of the sixteen hooks (a nil error
prints as `<nil>` under `%v` and as `%!s(<nil>)` under `%s`, a nil connection as `<nil>`,
a header map as its entries, all of them, in key order). With a nil error `PutIdleConn`,
`ConnectDone` and `TLSHandshakeDone` still print their other fields (`ConnectDone` its
network and address), and so do `Got1xxResponse` with a nil header, `WroteHeaderField`
with no values and `GetConn` with an empty string. The five calls of the scenario (DNS
start and done, connect start and done with a nil error, first response byte) give five
records in that order with the listed fields, and so do calls of the other hooks. -/
theorem hooks_return_normally (c : HookCall) (now : Time) (out : Stdout) :
    call trace c now out = .ok (fire trace c now out)
      ∧ fire trace c now out = (out ++ [Write.text (match c with
          | .GetConn hostPort =>
            "GetConn - hostPort: " ++ hostPort ++ "\n\tTime: " ++ now ++ "\n"
          | .GotConn connInfo =>
            "GotCon - connInfo: "
              ++ ("\x7b" ++ connInfo.Conn.getD "<nil>" ++ " "
                ++ (if connInfo.Reused = true then "true" else "false") ++ " "
                ++ (if connInfo.WasIdle = true then "true" else "false") ++ " "
                ++ connInfo.IdleTime ++ "\x7d")
              ++ "\n\tIdletime: " ++ connInfo.IdleTime ++ "\n\tTime: " ++ now ++ "\n"
          | .PutIdleConn err =>
            "PutIdleConn - err: " ++ err.getD "<nil>" ++ "\n\tTime: " ++ now ++ "\n"
          | .GotFirstResponseByte => "GotFirstResponseByte - \n\tTime: " ++ now ++ "\n"
          | .Got100Continue => "Got100Continue - \n\tTime: " ++ now ++ "\n"
          | .Got1xxResponse code header =>
            "Got1xxResponse - code: " ++ toString code ++ "\tMime: "
              ++ ("map[" ++ " ".intercalate ((sortByKey header).map fun e =>
                  e.1 ++ ":" ++ ("[" ++ " ".intercalate e.2 ++ "]")) ++ "]")
              ++ "\n\tTime: " ++ now ++ "\n"
          | .DNSStart dsi =>
            "DNSStart - DNSStartInfo host: " ++ dsi.Host ++ "\n\tTime: " ++ now ++ "\n"
          | .DNSDone ddi =>
            "DNSDone - DNSDoneInfo: "
              ++ ("\x7b[" ++ " ".intercalate (ddi.Addrs.map fun a =>
                  "\x7b" ++ a.IP ++ " " ++ a.Zone ++ "\x7d") ++ "] "
                ++ ddi.Err.getD "<nil>" ++ " "
                ++ (if ddi.Coalesced = true then "true" else "false") ++ "\x7d")
              ++ "\n\tTime: " ++ now ++ "\n"
          | .ConnectStart network addr =>
            "ConnectStart - network: " ++ network ++ "\taddr: " ++ addr ++ "\n\tTime: "
              ++ now ++ "\n"
          | .ConnectDone network addr err =>
            "ConnectDone - network: " ++ network ++ "\taddr: " ++ addr ++ "\terror: "
              ++ err.getD "%!s(<nil>)" ++ "\n\tTime: " ++ now ++ "\n"
          | .TLSHandshakeStart => "TLSHandshakeStart - \n\tTime: " ++ now ++ "\n"
          | .TLSHandshakeDone cs err =>
            "TLSHandshakeDone - ConnectionState completed: "
              ++ (if cs.HandshakeComplete = true then "true" else "false") ++ "\terror: "
              ++ err.getD "%!s(<nil>)" ++ "\n\tTime: " ++ now ++ "\n"
          | .WroteHeaderField key value =>
            "WroteHeaderField - key: " ++ key ++ "\tvalue: "
              ++ ("[" ++ " ".intercalate value ++ "]") ++ "\n\tTime: " ++ now ++ "\n"
          | .WroteHeaders => "WroteHeaders - \n\tTime: " ++ now ++ "\n"
          | .Wait100Continue => "Wait100Continue - \n\tTime: " ++ now ++ "\n"
          | .WroteRequest wri =>
            "WroteRequest - WroteRequestInfo: " ++ ("\x7b" ++ wri.Err.getD "<nil>" ++ "\x7d")
              ++ "\n\tTime: " ++ now ++ "\n")], none)
      ∧ (∀ header : MIMEHeader, (sortByKey header).Perm header
          ∧ (sortByKey header).Pairwise fun a b => ¬ b.1.data < a.1.data)
      ∧ fire trace (.PutIdleConn none) now out
        = (out ++ [Write.text ("PutIdleConn - err: " ++ "<nil>" ++ "\n\tTime: " ++ now
            ++ "\n")], none)
      ∧ (∀ network addr, fire trace (.ConnectDone network addr none) now out
        = (out ++ [Write.text ("ConnectDone - network: " ++ network ++ "\taddr: " ++ addr
            ++ "\terror: " ++ "%!s(<nil>)" ++ "\n\tTime: " ++ now ++ "\n")], none))
      ∧ (∀ cs, fire trace (.TLSHandshakeDone cs none) now out
        = (out ++ [Write.text ("TLSHandshakeDone - ConnectionState completed: "
            ++ (if cs.HandshakeComplete = true then "true" else "false") ++ "\terror: "
            ++ "%!s(<nil>)" ++ "\n\tTime: " ++ now ++ "\n")], none))
      ∧ (∀ code, fire trace (.Got1xxResponse code []) now out
        = (out ++ [Write.text ("Got1xxResponse - code: " ++ toString code ++ "\tMime: "
            ++ "map[]" ++ "\n\tTime: " ++ now ++ "\n")], none))
      ∧ (∀ key, fire trace (.WroteHeaderField key []) now out
        = (out ++ [Write.text ("WroteHeaderField - key: " ++ key ++ "\tvalue: " ++ "[]"
            ++ "\n\tTime: " ++ now ++ "\n")], none))
      ∧ fire trace (.GetConn "") now out
        = (out ++ [Write.text ("GetConn - hostPort: " ++ "" ++ "\n\tTime: " ++ now ++ "\n")],
            none)
      ∧ fireAll trace [
            (.DNSStart ⟨"example.com"⟩, "t1"),
            (.DNSDone ⟨[⟨"93.184.216.34", ""⟩], none, false⟩, "t2"),
            (.ConnectStart "tcp" "93.184.216.34:443", "t3"),
            (.ConnectDone "tcp" "93.184.216.34:443" none, "t4"),
            (.GotFirstResponseByte, "t5")] []
        = ([Write.text "DNSStart - DNSStartInfo host: example.com\n\tTime: t1\n",
            Write.text "DNSDone - DNSDoneInfo: \x7b[\x7b93.184.216.34 \x7d] <nil> false\x7d\n\tTime: t2\n",
            Write.text "ConnectStart - network: tcp\taddr: 93.184.216.34:443\n\tTime: t3\n",
            Write.text "ConnectDone - network: tcp\taddr: 93.184.216.34:443\terror: %!s(<nil>)\n\tTime: t4\n",
            Write.text "GotFirstResponseByte - \n\tTime: t5\n"], none)
      ∧ fireAll trace [
            (.GetConn "example.com:443", "t1"),
            (.DNSDone ⟨[⟨"93.184.216.34", ""⟩, ⟨"fe80::1", "eth0"⟩],
              some "lookup example.com: no such host", true⟩, "t2"),
            (.ConnectDone "tcp" "93.184.216.34:443" (some "connection refused"), "t3"),
            (.TLSHandshakeStart, "t4"),
            (.TLSHandshakeDone ⟨true⟩ none, "t5"),
            (.GotConn ⟨some "0xc000124000", true, false, "1.5s"⟩, "t6"),
            (.GotConn ⟨none, false, true, "0s"⟩, "t7"),
            (.WroteHeaderField "Accept" ["text/html", "*/*"], "t8"),
            (.WroteHeaders, "t9"),
            (.Wait100Continue, "t10"),
            (.Got100Continue, "t11"),
            (.WroteRequest ⟨none⟩, "t12"),
            (.WroteRequest ⟨some "broken pipe"⟩, "t13"),
            (.Got1xxResponse 103 [("Link", ["</a.css>", "</b.js>"]), ("Date", ["today"])],
              "t14"),
            (.Got1xxResponse (-1) [], "t15"),
            (.PutIdleConn (some "too many idle connections"), "t16")] []
        = ([Write.text "GetConn - hostPort: example.com:443\n\tTime: t1\n",
            Write.text "DNSDone - DNSDoneInfo: \x7b[\x7b93.184.216.34 \x7d \x7bfe80::1 eth0\x7d] lookup example.com: no such host true\x7d\n\tTime: t2\n",
            Write.text "ConnectDone - network: tcp\taddr: 93.184.216.34:443\terror: connection refused\n\tTime: t3\n",
            Write.text "TLSHandshakeStart - \n\tTime: t4\n",
            Write.text "TLSHandshakeDone - ConnectionState completed: true\terror: %!s(<nil>)\n\tTime: t5\n",
            Write.text "GotCon - connInfo: \x7b0xc000124000 true false 1.5s\x7d\n\tIdletime: 1.5s\n\tTime: t6\n",
            Write.text "GotCon - connInfo: \x7b<nil> false true 0s\x7d\n\tIdletime: 0s\n\tTime: t7\n",
            Write.text "WroteHeaderField - key: Accept\tvalue: [text/html */*]\n\tTime: t8\n",
            Write.text "WroteHeaders - \n\tTime: t9\n",
            Write.text "Wait100Continue - \n\tTime: t10\n",
            Write.text "Got100Continue - \n\tTime: t11\n",
            Write.text "WroteRequest - WroteRequestInfo: \x7b<nil>\x7d\n\tTime: t12\n",
            Write.text "WroteRequest - WroteRequestInfo: \x7bbroken pipe\x7d\n\tTime: t13\n",
            Write.text "Got1xxResponse - code: 103\tMime: map[Date:[today] Link:[</a.css> </b.js>]]\n\tTime: t14\n",
            Write.text "Got1xxResponse - code: -1\tMime: map[]\n\tTime: t15\n",
            Write.text "PutIdleConn - err: too many idle connections\n\tTime: t16\n"], none) := by
  refine ⟨?_, ?_, fun header => ⟨sortByKey_perm header, ?_⟩, rfl, fun _ _ => rfl, ?_,
    fun _ => rfl, fun _ => rfl, rfl, by decide, by decide⟩
  · cases c <;> rfl
  · rw [fire_trace, record_eq]
    cases c with
    | GotConn connInfo => rcases connInfo with ⟨_ | _, _ | _, _ | _, _⟩ <;> rfl
    | PutIdleConn err => cases err <;> rfl
    | DNSDone ddi => rcases ddi with ⟨_, _ | _, _ | _⟩ <;> rfl
    | ConnectDone network addr err => cases err <;> rfl
    | TLSHandshakeDone cs err => rcases cs with ⟨_ | _⟩ <;> cases err <;> rfl
    | WroteRequest wri => rcases wri with ⟨_ | _⟩ <;> rfl
    | _ => rfl
  · exact (sortByKey_sorted header).imp fun h => by simpa [keyLess] using h
  · intro cs
    rcases cs with ⟨_ | _⟩ <;> rfl

/-- C10: the hooks are a stateless mapping: after any two histories of earlier
invocations (and on any standard output at all) the same hook with the same arguments at
the same clock reading appends the same record, `record c now`, and returns the same
result; nothing is rejected or altered because of what was invoked before. -/
theorem hooks_stateless (before1 before2 : List (HookCall × Time)) (c : HookCall)
    (now : Time) (out1 out2 : Stdout) :
    fire trace c now (fireAll trace before1 out1).1
        = ((fireAll trace before1 out1).1 ++ record c now, none)
      ∧ fire trace c now (fireAll trace before2 out2).1
        = ((fireAll trace before2 out2).1 ++ record c now, none)
      ∧ (fireAll trace (before1 ++ [(c, now)]) out1).1
        = (fireAll trace before1 out1).1 ++ record c now
      ∧ (fireAll trace (before2 ++ [(c, now)]) out2).1
        = (fireAll trace before2 out2).1 ++ record c now := by
  refine ⟨fire_trace _ _ _, fire_trace _ _ _, ?_, ?_⟩ <;>
    simp [fireAll_trace, List.append_assoc]

/-! ## NewRequest -/

/-- Whenever the library refuses the arguments, `NewRequest` dereferences the nil request. -/
theorem NewRequest_of_reject (reject : String → String → GoError) (method url : String)
    (body : Option (List UInt8)) (e : String) (h : reject method url = some e) :
    NewRequest reject method url body = .error Fault.nilDereference := by
  simp [NewRequest, httpNewRequest, h]

/-- C1 (the code departs from it): `http.NewRequest` refuses the method `BAD METHOD` with a
nil request and a non-nil error, and `NewRequest` then panics on the nil request instead
of returning that error. -/
theorem NewRequest_panics_on_bad_method :
    httpNewRequest rejectBadMethod "BAD METHOD" "https://example.com" none
        = (none, some "net/http: invalid method \"BAD METHOD\"")
      ∧ NewRequest rejectBadMethod "BAD METHOD" "https://example.com" none
        = .error Fault.nilDereference := by
  have h : rejectBadMethod "BAD METHOD" "https://example.com"
      = some "net/http: invalid method \"BAD METHOD\"" := by decide
  exact ⟨by simp [httpNewRequest, h], NewRequest_of_reject _ _ _ _ _ h⟩

/-- C6: whenever `http.NewRequest` succeeds with request `req`, `NewRequest` returns a nil
error and a `Request` whose context carries a client trace with all sixteen hooks set. -/
theorem NewRequest_sets_all_hooks (reject : String → String → GoError) (method url : String)
    (body : Option (List UInt8)) (req : HttpRequest)
    (h : httpNewRequest reject method url body = (some req, none)) :
    ∃ r t, NewRequest reject method url body = .ok (r, none)
      ∧ r.Request.Method = req.Method ∧ r.Request.URL = req.URL ∧ r.Request.Body = req.Body
      ∧ ContextClientTrace r.Request.Context = some t
      ∧ t.GetConn.isSome = true ∧ t.GotConn.isSome = true ∧ t.PutIdleConn.isSome = true
      ∧ t.DNSStart.isSome = true ∧ t.DNSDone.isSome = true ∧ t.ConnectStart.isSome = true
      ∧ t.ConnectDone.isSome = true ∧ t.TLSHandshakeStart.isSome = true
      ∧ t.TLSHandshakeDone.isSome = true ∧ t.WroteHeaderField.isSome = true
      ∧ t.WroteHeaders.isSome = true ∧ t.Wait100Continue.isSome = true
      ∧ t.Got100Continue.isSome = true ∧ t.Got1xxResponse.isSome = true
      ∧ t.GotFirstResponseByte.isSome = true ∧ t.WroteRequest.isSome = true := by
  refine ⟨⟨req.WithContext (WithClientTrace req.Context trace)⟩, trace, ?_, rfl, rfl, rfl, rfl,
    rfl, rfl, rfl, rfl, rfl, rfl, rfl, rfl, rfl, rfl, rfl, rfl, rfl, rfl, rfl, rfl⟩
  simp [NewRequest, h]

/-- Witness for C6: the request `main` builds, GET on https://example.com. -/
theorem NewRequest_sets_all_hooks_witness :
    httpNewRequest rejectBadMethod "GET" "https://example.com" none
        = (some ⟨"GET", "https://example.com", none, Context.background⟩, none)
      ∧ ∃ r t, NewRequest rejectBadMethod "GET" "https://example.com" none = .ok (r, none)
        ∧ r.Request.Method = "GET" ∧ r.Request.URL = "https://example.com"
        ∧ r.Request.Body = none
        ∧ ContextClientTrace r.Request.Context = some t
        ∧ t.GetConn.isSome = true ∧ t.GotConn.isSome = true ∧ t.PutIdleConn.isSome = true
        ∧ t.DNSStart.isSome = true ∧ t.DNSDone.isSome = true ∧ t.ConnectStart.isSome = true
        ∧ t.ConnectDone.isSome = true ∧ t.TLSHandshakeStart.isSome = true
        ∧ t.TLSHandshakeDone.isSome = true ∧ t.WroteHeaderField.isSome = true
        ∧ t.WroteHeaders.isSome = true ∧ t.Wait100Continue.isSome = true
        ∧ t.Got100Continue.isSome = true ∧ t.Got1xxResponse.isSome = true
        ∧ t.GotFirstResponseByte.isSome = true ∧ t.WroteRequest.isSome = true :=
  have h : httpNewRequest rejectBadMethod "GET" "https://example.com" none
      = (some ⟨"GET", "https://example.com", none, Context.background⟩, none) := by
    have h0 : rejectBadMethod "GET" "https://example.com" = none := by decide
    simp [httpNewRequest, h0]
  ⟨h, NewRequest_sets_all_hooks rejectBadMethod "GET" "https://example.com" none _ h⟩

/-! ## The kind printed by GotConn -/

/-- Every hook but `GotConn` prints its own name, a dash, its fields and the time. -/
theorem record_form (c : HookCall) (now : Time) (h : ∀ connInfo, c ≠ .GotConn connInfo) :
    ∃ fields, record c now = [Write.text (c.name ++ " - " ++ fields ++ "\n\tTime: " ++ now
      ++ "\n")] := by
  rw [record_eq]
  cases c with
  | GotConn connInfo => exact absurd rfl (h connInfo)
  | GetConn hostPort => exact ⟨"hostPort: " ++ hostPort, by simp [HookCall.name, String.ext_iff]⟩
  | PutIdleConn err => exact ⟨"err: " ++ fmtErrorV err, by simp [HookCall.name, String.ext_iff]⟩
  | GotFirstResponseByte => exact ⟨"", by simp [HookCall.name, String.ext_iff]⟩
  | Got100Continue => exact ⟨"", by simp [HookCall.name, String.ext_iff]⟩
  | Got1xxResponse code header =>
    exact ⟨"code: " ++ fmtInt code ++ "\tMime: " ++ fmtMIMEHeader header,
      by simp [HookCall.name, String.ext_iff]⟩
  | DNSStart dsi =>
    exact ⟨"DNSStartInfo host: " ++ dsi.Host, by simp [HookCall.name, String.ext_iff]⟩
  | DNSDone ddi =>
    exact ⟨"DNSDoneInfo: " ++ fmtDNSDoneInfo ddi, by simp [HookCall.name, String.ext_iff]⟩
  | ConnectStart network addr =>
    exact ⟨"network: " ++ network ++ "\taddr: " ++ addr,
      by simp [HookCall.name, String.ext_iff]⟩
  | ConnectDone network addr err =>
    exact ⟨"network: " ++ network ++ "\taddr: " ++ addr ++ "\terror: " ++ fmtErrorS err,
      by simp [HookCall.name, String.ext_iff]⟩
  | TLSHandshakeStart => exact ⟨"", by simp [HookCall.name, String.ext_iff]⟩
  | TLSHandshakeDone cs err =>
    exact ⟨"ConnectionState completed: " ++ fmtBool cs.HandshakeComplete ++ "\terror: "
      ++ fmtErrorS err, by simp [HookCall.name, String.ext_iff]⟩
  | WroteHeaderField key value =>
    exact ⟨"key: " ++ key ++ "\tvalue: " ++ fmtStrings value,
      by simp [HookCall.name, String.ext_iff]⟩
  | WroteHeaders => exact ⟨"", by simp [HookCall.name, String.ext_iff]⟩
  | Wait100Continue => exact ⟨"", by simp [HookCall.name, String.ext_iff]⟩
  | WroteRequest wri =>
    exact ⟨"WroteRequestInfo: " ++ fmtWroteRequestInfo wri,
      by simp [HookCall.name, String.ext_iff]⟩

/-- C9 (the code departs from it): the record of the `GotConn` hook starts with `GotCon`,
not with the name of the hook; for no text `fields` is it
`GotConn - fields\n\tTime: now\n`. -/
theorem GotConn_record_kind (connInfo : GotConnInfo) (now : Time) (out : Stdout) :
    fire trace (.GotConn ⟨some "0xc000124000", false, false, "0s"⟩) "t" []
        = ([Write.text "GotCon - connInfo: \x7b0xc000124000 false false 0s\x7d\n\tIdletime: 0s\n\tTime: t\n"],
            none)
      ∧ fire trace (.GotConn connInfo) now out
        = (out ++ [Write.text ("GotCon - connInfo: " ++ fmtGotConnInfo connInfo
            ++ "\n\tIdletime: " ++ connInfo.IdleTime ++ "\n\tTime: " ++ now ++ "\n")], none)
      ∧ ∀ fields, fire trace (.GotConn connInfo) now out
        ≠ (out ++ [Write.text ((HookCall.GotConn connInfo).name ++ " - " ++ fields
            ++ "\n\tTime: " ++ now ++ "\n")], none) := by
  refine ⟨by decide, rfl, ?_⟩
  intro fields h
  rw [fire_trace, record_eq] at h
  simp [HookCall.name, String.ext_iff] at h

/-! ## main -/

/-- The call `client.Do` on a request carrying `trace`: every hook invocation is printed,
none aborts, and the result is the transport's. -/
theorem clientDo_trace (w : World) (req : HttpRequest) (out : Stdout)
    (h : ContextClientTrace req.Context = some trace) :
    clientDo w req out
      = (out ++ (w.hooks.map fun p => record p.1 p.2).flatten, w.doResult) := by
  simp [clientDo, h, fireAll_trace]

/-- The run of `main` when the library accepts the fixed method and URL. -/
theorem main_eq (w : World) (h : w.reject "GET" "https://example.com" = none) :
    main w = (match w.doResult.1 with
      | none => ⟨mainTrace w, some Fault.nilDereference⟩
      | some resp =>
        if 20 ≤ resp.bodyBytes.cap then
          ⟨mainTrace w ++ lateTrace w
            ++ [Write.raw ((resp.bodyBytes.elems ++ resp.bodyBytes.spare).take 20),
              Write.text "\n-----------------\n"], none⟩
        else
          ⟨mainTrace w ++ lateTrace w, some (Fault.sliceBounds 20 resp.bodyBytes.cap)⟩) := by
  have hreq : NewRequest w.reject "GET" "https://example.com" none
      = .ok (⟨(⟨"GET", "https://example.com", none, Context.background⟩ : HttpRequest).WithContext
          (WithClientTrace Context.background trace)⟩, none) := by
    simp [NewRequest, httpNewRequest, h, HttpRequest.Context]
  rcases hres : w.doResult with ⟨resp, err⟩
  have hdo : ∀ out, clientDo w ((⟨"GET", "https://example.com", none, Context.background⟩ :
      HttpRequest).WithContext (WithClientTrace Context.background trace)) out
      = (out ++ (w.hooks.map fun p => record p.1 p.2).flatten, w.doResult) :=
    fun out => clientDo_trace w _ out rfl
  have hread : ∀ r out, readAll w ((⟨"GET", "https://example.com", none, Context.background⟩ :
      HttpRequest).WithContext (WithClientTrace Context.background trace)) r out
      = (out ++ lateTrace w, r.bodyBytes) := by
    intro r out
    have hctx : ContextClientTrace ((⟨"GET", "https://example.com", none,
        Context.background⟩ : HttpRequest).WithContext
          (WithClientTrace Context.background trace)).Context = some trace := rfl
    simp [readAll, hctx, fireAll_trace, lateTrace]
  simp only [main, hreq, hdo, hres, hread]
  cases resp with
  | none => cases err <;> simp [mainTrace, hres, Printf]
  | some r =>
    by_cases hc : 20 ≤ r.bodyBytes.cap <;>
      cases err <;> simp [mainTrace, hres, Printf, ByteSlice.sliceTo, hc]

/-- Whenever `client.Do` hands back a nil response, `main` ends in a panic. -/
theorem main_of_nil_response (w : World) (h : w.doResult.1 = none) :
    (main w).panic ≠ none := by
  cases hr : w.reject "GET" "https://example.com" with
  | none => rw [main_eq w hr, h]; simp
  | some e => simp [main, NewRequest_of_reject _ _ _ _ _ hr]

/-- With a body of at least 20 bytes `main` prints its first 20 bytes and the separator. -/
theorem main_of_long_body (w : World) (resp : Response)
    (h : w.reject "GET" "https://example.com" = none) (hd : w.doResult.1 = some resp)
    (hl : 20 ≤ resp.bodyBytes.len) :
    main w = ⟨mainTrace w ++ lateTrace w ++ [Write.raw (resp.bodyBytes.elems.take 20),
      Write.text "\n-----------------\n"], none⟩ := by
  have hc : 20 ≤ resp.bodyBytes.cap := by
    simp only [ByteSlice.len, ByteSlice.cap] at hl ⊢; omega
  rw [main_eq w h, hd]
  simp only [hc, if_true]
  rw [List.take_append_of_le_length (by simpa [ByteSlice.len] using hl)]

/-- With a body of fewer than 20 bytes `main` never prints that body and the separator:
it panics, or the bytes it prints are 20 and run past the end of the body. -/
theorem main_of_short_body (w : World) (resp : Response) (hd : w.doResult.1 = some resp)
    (hl : resp.bodyBytes.len < 20) (pre : Stdout) :
    main w ≠ ⟨pre ++ [Write.raw (resp.bodyBytes.elems.take 20),
      Write.text "\n-----------------\n"], none⟩ := by
  cases hr : w.reject "GET" "https://example.com" with
  | some e => simp [main, NewRequest_of_reject _ _ _ _ _ hr]
  | none =>
    rw [main_eq w hr, hd]
    by_cases hc : 20 ≤ resp.bodyBytes.cap
    · simp only [hc, if_true]
      intro heq
      have h1 := congrArg (fun r => r.stdout.getLast?) heq
      have h2 := congrArg (fun r => r.stdout.dropLast.getLast?) heq
      simp only [ByteSlice.len, ByteSlice.cap] at hl hc
      simp [← List.append_assoc, List.dropLast_concat] at h2
      rcases h2 with h2 | h2
      · simp [h2] at hc
        omega
      · omega
    · simp [hc]

/-- C2 (the code departs from it): when name resolution fails, `client.Do` returns a nil
response and an error; `main` prints the error line and then panics on the nil response
(`resp.Body` on line 93) instead of returning. -/
theorem main_panics_when_Do_fails :
    main offlineWorld
      = { stdout := [
            Write.text "Start connection - \n\tTime: t0\n",
            Write.text "GetConn - hostPort: example.com:443\n\tTime: t1\n",
            Write.text "DNSStart - DNSStartInfo host: example.com\n\tTime: t2\n",
            Write.text "DNSDone - DNSDoneInfo: \x7b[] lookup example.com: no such host false\x7d\n\tTime: t3\n",
            Write.text "End connection - \n\tTime: t4\n",
            Write.text "Error: Get \"https://example.com\": dial tcp: lookup example.com: no such host\n"],
          panic := some Fault.nilDereference } := by
  decide

set_option maxRecDepth 8192 in
/-- C3 (the code departs from it): for the five-byte body `hello`, read into the 512-byte
buffer of `ioutil.ReadAll`, `main` prints 20 bytes, the body and 15 bytes from beyond its
end; when the slice has no spare capacity, `bodyBytes[:20]` is out of range and `main`
panics. Neither run prints just the bytes of the body before the separator. The same 20
bytes are printed when the connection goes idle once the body is read and the transport
fires `PutIdleConn` before `main` prints. -/
theorem main_short_body :
    main helloWorld
      = { stdout := [
            Write.text "Start connection - \n\tTime: t0\n",
            Write.text "GetConn - hostPort: example.com:443\n\tTime: t1\n",
            Write.text "GotFirstResponseByte - \n\tTime: t2\n",
            Write.text "End connection - \n\tTime: t3\n",
            Write.raw [104, 101, 108, 108, 111, 0, 0, 0, 0, 0, 0, 0, 0, 0, 0, 0, 0, 0, 0, 0],
            Write.text "\n-----------------\n"],
          panic := none }
      ∧ main { helloWorld with
          doResult := (some ⟨{ elems := [104, 101, 108, 108, 111], spare := [] }⟩, none) }
        = { stdout := [
              Write.text "Start connection - \n\tTime: t0\n",
              Write.text "GetConn - hostPort: example.com:443\n\tTime: t1\n",
              Write.text "GotFirstResponseByte - \n\tTime: t2\n",
              Write.text "End connection - \n\tTime: t3\n"],
            panic := some (Fault.sliceBounds 20 5) }
      ∧ [(104 : UInt8), 101, 108, 108, 111].take 20 = [104, 101, 108, 108, 111]
      ∧ main { helloWorld with lateHooks := [(.PutIdleConn none, "t4")] }
        = { stdout := [
              Write.text "Start connection - \n\tTime: t0\n",
              Write.text "GetConn - hostPort: example.com:443\n\tTime: t1\n",
              Write.text "GotFirstResponseByte - \n\tTime: t2\n",
              Write.text "End connection - \n\tTime: t3\n",
              Write.text "PutIdleConn - err: <nil>\n\tTime: t4\n",
              Write.raw [104, 101, 108, 108, 111, 0, 0, 0, 0, 0, 0, 0, 0, 0, 0, 0, 0, 0, 0, 0],
              Write.text "\n-----------------\n"],
            panic := none } :=
  ⟨rfl, rfl, rfl, rfl⟩

end HttpTrace
